import Mathlib

/-!
Shallow embedding of `IPython/nbconvert/filters/markdown.py`, the Markdown
conversion filter module. Python strings are Lean `String`s; the module-level
mutable `_node` is threaded explicitly as a `PyVal`; subprocess spawning and
the external collaborators (pandoc, node, mistune, pygments) are parameters
of the embedded functions, with outcomes drawn from small inductive types.
Fallible Python code returns `Except PyError _`.
-/

/-- Python exception values that can escape the embedded functions.
`nodeJSMissing` and `pandocMissing` are the module's `ConversionException`
subclasses (the spec's `BackendUnavailable`); `conversionError` is pandoc's
non-zero-exit error; `classNotFound` is pygments' unknown-lexer error (the
spec's `UnknownLanguage`); `attributeError` and `typeError` are the builtin
Python exceptions of those names, which are NOT `ConversionException`s. -/
inductive PyError where
  | nodeJSMissing (msg : String)
  | pandocMissing (msg : String)
  | conversionError (msg : String)
  | classNotFound (lang : String)
  | attributeError (msg : String)
  | typeError (msg : String)
deriving DecidableEq, Repr

/-- An error is one of the spec's `BackendUnavailable` kind exactly when it is
one of the module's `ConversionException` subclasses. -/
def isBackendUnavailable : PyError → Bool
  | .nodeJSMissing _ => true
  | .pandocMissing _ => true
  | _ => false

/-- Python value of the module-level `_node` global: `None` initially, a
command-name string once a working node was found, `False` once the probe
failed for both candidates. -/
inductive PyVal where
  | noneV
  | falseV
  | strV (s : String)
deriving DecidableEq, Repr

/-- Python truthiness of a `_node` value: `None` and `False` are falsy, a
string is truthy iff non-empty. -/
def pyTruthy : PyVal → Bool
  | .noneV => false
  | .falseV => false
  | .strV s => s ≠ ""

/-- The bundled renderer script path, `os.path.join(os.path.dirname(__file__),
"marked.js")` evaluated at the module's location. -/
def marked : String := "IPython/nbconvert/filters/marked.js"

/-- Python `s.rstrip('\n')`: remove every trailing newline character. -/
def pyRstripNewlines (s : String) : String :=
  ⟨((s.data.reverse.dropWhile (fun c => c = '\n'))).reverse⟩

/-- Python `s.lstrip('v')`: remove every leading `v` character. -/
def pyLstripV (s : String) : String :=
  ⟨s.data.dropWhile (fun c => c = 'v')⟩

/-- Outcome of attempting to spawn a subprocess for a given (string)
executable: the spawn raises `OSError`, or yields a process whose captured
output and exit code are given. -/
inductive SpawnOutcome where
  | osError (emsg : String)
  | ok (outp : String) (code : Nat)
deriving DecidableEq, Repr

/-- Environment for node subprocess calls: what spawning a given command name
does in this process. -/
def SpawnEnv : Type := String → SpawnOutcome

/-- The `[_node, marked]` argument list built by `markdown2html_marked`
(source line 116) before any type check happens. -/
def markedCommand (node : PyVal) : List PyVal := [node, PyVal.strV marked]

/-- `markdown2html_marked(source, encoding='utf-8')` (source lines 114-128).
`subprocess.Popen` raises `TypeError` when the executable entry is not a
string (Python stdlib semantics — `_node` may still be `None` or `False`);
the function catches only `OSError`, converting it to `NodeJSMissing` with
the joined command, the OS error text and an installation hint; on a
successful spawn the (decoded) output is returned with every trailing
newline stripped, and the exit code is never read. `decode` stands for
`TextIOWrapper(BytesIO(out), encoding, 'replace').read()`. -/
def markdown2html_marked (spawnEnv : SpawnEnv) (decode : String → String)
    (node : PyVal) (_source : String) : Except PyError String :=
  match markedCommand node with
  | PyVal.strV c :: _ =>
      match spawnEnv c with
      | .osError e =>
          .error (.nodeJSMissing
            ("The command '" ++ c ++ " " ++ marked ++ "' returned an error: "
              ++ e ++ ".\nPlease check that Node.js is installed."))
      | .ok out _code => .ok (pyRstripNewlines (decode out))
  | _ =>
      .error (.typeError
        "expected str, bytes or os.PathLike object, not NoneType")

/-- Claim C1 (counterexample): `markdown2html_marked` does NOT trim exactly one
trailing newline. With a backend whose decoded output is `"<h1>Hi</h1>\n\n"`
the function returns `"<h1>Hi</h1>"` — both newlines are stripped — whereas
the claim demands `"<h1>Hi</h1>\n"`. -/
theorem markdown2html_marked_strips_all_newlines_counterexample :
    markdown2html_marked (fun _ => SpawnOutcome.ok "<h1>Hi</h1>\n\n" 0)
      (fun b => b) (PyVal.strV "node") "# Hi" = Except.ok "<h1>Hi</h1>"
    ∧ ("<h1>Hi</h1>" : String) ≠ "<h1>Hi</h1>\n" := by
  exact ⟨rfl, by decide⟩

theorem pyRstripNewlines_restore (s : String) :
    ∃ n, (pyRstripNewlines s).data ++ List.replicate n '\n' = s.data := by
  refine ⟨(s.data.reverse.takeWhile (fun c => c = '\n')).length, ?_⟩
  have htw : s.data.reverse.takeWhile (fun c => c = '\n')
      = List.replicate (s.data.reverse.takeWhile (fun c => c = '\n')).length '\n' := by
    rw [List.eq_replicate_length]
    intro b hb
    have := List.mem_takeWhile_imp hb
    simpa using this
  have hsplit : s.data.reverse.takeWhile (fun c => c = '\n')
      ++ s.data.reverse.dropWhile (fun c => c = '\n') = s.data.reverse :=
    List.takeWhile_append_dropWhile _ _
  have := congrArg List.reverse hsplit
  rw [List.reverse_append, List.reverse_reverse] at this
  calc (pyRstripNewlines s).data ++ List.replicate
        (s.data.reverse.takeWhile (fun c => c = '\n')).length '\n'
      = (s.data.reverse.dropWhile (fun c => c = '\n')).reverse
        ++ (s.data.reverse.takeWhile (fun c => c = '\n')).reverse := by
        rw [htw]; simp [pyRstripNewlines]
    _ = s.data := this

theorem pyRstripNewlines_no_trailing (s : String) :
    (pyRstripNewlines s).data.getLast? ≠ some '\n' := by
  show ((s.data.reverse.dropWhile (fun c => c = '\n'))).reverse.getLast? ≠ some '\n'
  rw [List.getLast?_reverse]
  cases hd : s.data.reverse.dropWhile (fun c => c = '\n') with
  | nil => simp
  | cons c t =>
      have hc : ¬ (fun c => c = '\n') c := by
        have := List.head?_dropWhile_not (fun c => c = '\n') s.data.reverse
        rw [hd] at this
        simpa using this
      simp only [List.head?_cons, ne_eq, Option.some.injEq]
      simpa using hc

theorem pyRstripNewlines_id_of_no_newline (s : String)
    (h : s.data.getLast? ≠ some '\n') : pyRstripNewlines s = s := by
  have hrev : s.data.reverse.head? ≠ some '\n' := by
    rwa [List.head?_reverse]
  have hdrop : s.data.reverse.dropWhile (fun c => c = '\n') = s.data.reverse := by
    cases hr : s.data.reverse with
    | nil => simp
    | cons c t =>
        rw [hr] at hrev
        simp only [List.head?_cons, ne_eq, Option.some.injEq] at hrev
        rw [List.dropWhile_cons_of_neg (by simpa using hrev)]
  show String.mk ((s.data.reverse.dropWhile (fun c => c = '\n'))).reverse = s
  rw [hdrop, List.reverse_reverse]

/-- Claim C1 (amended): on a successful spawn, `markdown2html_marked` returns
the decoded output with ALL trailing newlines removed (not exactly one): the
result plus some run of newlines restores the decoded output, the result has
no trailing newline left, and a decoded output with no trailing newline is
returned unchanged. -/
theorem markdown2html_marked_trims_all_trailing_newlines
    (spawnEnv : SpawnEnv) (decode : String → String) (c source out : String)
    (code : Nat) (h : spawnEnv c = SpawnOutcome.ok out code) :
    markdown2html_marked spawnEnv decode (PyVal.strV c) source
      = Except.ok (pyRstripNewlines (decode out))
    ∧ (∃ n, (pyRstripNewlines (decode out)).data ++ List.replicate n '\n'
        = (decode out).data)
    ∧ (pyRstripNewlines (decode out)).data.getLast? ≠ some '\n'
    ∧ ((decode out).data.getLast? ≠ some '\n' →
        pyRstripNewlines (decode out) = decode out) := by
  refine ⟨?_, pyRstripNewlines_restore _, pyRstripNewlines_no_trailing _,
    pyRstripNewlines_id_of_no_newline _⟩
  simp [markdown2html_marked, markedCommand, h]

/-- Claim C1 (amended, witness): concrete instantiation — decoded output
`"<h1>Hi</h1>\n\n"` comes back as `"<h1>Hi</h1>"`. -/
theorem markdown2html_marked_trims_all_trailing_newlines_witness :
    markdown2html_marked (fun _ => SpawnOutcome.ok "<h1>Hi</h1>\n\n" 0)
      (fun b => b) (PyVal.strV "nodejs") "# Hi"
      = Except.ok (pyRstripNewlines "<h1>Hi</h1>\n\n") :=
  (markdown2html_marked_trims_all_trailing_newlines
    (fun _ => SpawnOutcome.ok "<h1>Hi</h1>\n\n" 0) (fun b => b)
    "nodejs" "# Hi" "<h1>Hi</h1>\n\n" 0 rfl).1

/-- Outcome of `get_output_error_code([cmd, '--version'])` for a candidate
command: the spawn raises `OSError` (command not found), or the command runs
and reports a decoded output string and an exit code. -/
inductive ProbeOutcome where
  | osError
  | exited (outp : String) (code : Nat)
deriving DecidableEq, Repr

/-- Split a character list at every `.`, keeping empty groups, like Python's
`str.split('.')`. -/
def splitOnDot : List Char → List (List Char)
  | [] => [[]]
  | c :: cs =>
      if c = '.' then [] :: splitOnDot cs
      else
        match splitOnDot cs with
        | [] => [[c]]
        | g :: gs => (c :: g) :: gs

/-- Parse a run of decimal digits into a number, `none` on any non-digit. -/
def parseDigitsAux : List Char → Nat → Option Nat
  | [], acc => some acc
  | c :: cs, acc =>
      if c.isDigit then parseDigitsAux cs (acc * 10 + (c.toNat - 48))
      else none

/-- Modelled from the spec: one numeric component of a version string;
non-numeric or empty components count as zero. -/
def parseComponent (l : List Char) : Nat := (parseDigitsAux l 0).getD 0

/-- Modelled from the spec: version-string parsing for semantic-version
ordering (the comparison lives in `IPython.utils.version.check_version`,
which is not under src/): a dotted decimal string becomes its list of
numeric components. -/
def parseVersion (s : String) : List Nat :=
  (splitOnDot s.data).map parseComponent

/-- Modelled from the spec: lexicographic comparison of version component
lists, missing components counting as zero. -/
def versionCmp : List Nat → List Nat → Ordering
  | [], ys => if ys.all (fun y => y = 0) then .eq else .lt
  | x :: xs, [] => if x = 0 then versionCmp xs [] else .gt
  | x :: xs, y :: ys =>
      if x < y then .lt else if y < x then .gt else versionCmp xs ys

/-- Modelled from the spec: `check_version(found, minv)`
(`IPython.utils.version`, not under src/) returns true iff the found version
is greater than or equal to the minimum under semantic-version ordering. -/
def check_version (found minv : String) : Bool :=
  versionCmp (parseVersion found) (parseVersion minv) ≠ Ordering.lt

/-- `_verify_node(cmd)` (source lines 148-164): unavailable on spawn failure
or non-zero exit, otherwise the reported version string, with every leading
`v` stripped, must satisfy `check_version(·, '0.9.12')`. -/
def _verify_node (probe : ProbeOutcome) : Bool :=
  match probe with
  | .osError => false
  | .exited out code =>
      if code ≠ 0 then false
      else check_version (pyLstripV out) "0.9.12"

/-- Claim C4: the probe returns unavailable on spawn failure or non-zero
exit; on a zero exit it is available iff the version string, leading `v`
stripped, is at least `0.9.12` under semantic-version ordering; in
particular `v0.9.12` is available (equality satisfies the minimum) and
`v0.9.11` is not. -/
theorem verify_node_spec (out : String) (code : Nat) (hc : code ≠ 0) :
    _verify_node ProbeOutcome.osError = false
    ∧ _verify_node (ProbeOutcome.exited out code) = false
    ∧ (_verify_node (ProbeOutcome.exited out 0) = true
        ↔ versionCmp (parseVersion (pyLstripV out)) [0, 9, 12] ≠ Ordering.lt)
    ∧ _verify_node (ProbeOutcome.exited "v0.9.12" 0) = true
    ∧ _verify_node (ProbeOutcome.exited "v0.9.11" 0) = false := by
  refine ⟨rfl, ?_, ?_, by decide, by decide⟩
  · simp [_verify_node, hc]
  · have hmin : parseVersion "0.9.12" = [0, 9, 12] := by decide
    simp [_verify_node, check_version, hmin]

/-- Claim C4 (witness): the hypothesis `code ≠ 0` discharged at exit code 1,
checking the non-zero-exit branch concretely. -/
theorem verify_node_spec_witness :
    _verify_node (ProbeOutcome.exited "v0.9.12" 1) = false :=
  (verify_node_spec "v0.9.12" 1 (by decide)).2.1

/-- Process environment seen by `markdown2html`: the results of the two node
probes and whether the `mistune` import succeeded. Probe results are fixed
per process, matching the spec's determinism assumption. -/
structure Env where
  nodejsOk : Bool
  nodeOk : Bool
  mistune : Bool
deriving DecidableEq, Repr

/-- Which backend a `markdown2html` call hands the source to. -/
inductive Backend where
  | marked (cmd : String)
  | mistuneB
  | pandocB
deriving DecidableEq, Repr

/-- The `if _node is None:` block of `markdown2html` (source lines 76-85):
from an unset `_node` it probes `nodejs` then `node`, warning and storing
`False` when both fail; from a set `_node` it does nothing. Returns the new
`_node`, whether the warning was emitted, and how many probes ran. -/
def selectNode (env : Env) (node : PyVal) : PyVal × Bool × Nat :=
  match node with
  | .noneV =>
      if env.nodejsOk then (.strV "nodejs", false, 1)
      else if env.nodeOk then (.strV "node", false, 2)
      else (.falseV, true, 2)
  | n => (n, false, 0)

/-- The tail of `markdown2html` (source lines 86-91): `if _node:` use marked,
elif mistune is importable use mistune, else pandoc. -/
def chooseBackend (env : Env) (node : PyVal) : Backend :=
  match node with
  | .strV c => if c = "" then (if env.mistune then .mistuneB else .pandocB)
               else .marked c
  | _ => if env.mistune then .mistuneB else .pandocB

/-- One `markdown2html(source)` call as a transition on the `_node` global:
new `_node`, warning emitted?, probes run, backend used. -/
def markdown2html_call (env : Env) (node : PyVal) :
    PyVal × Bool × Nat × Backend :=
  match selectNode env node with
  | (n', w, k) => (n', w, k, chooseBackend env n')

/-- A sequence of `markdown2html` calls from a given `_node` state, recording
for each call the warning flag, probe count and chosen backend. -/
def runCalls (env : Env) : Nat → PyVal → List (Bool × Nat × Backend)
  | 0, _ => []
  | n + 1, node =>
      (markdown2html_call env node).2
        :: runCalls env n (markdown2html_call env node).1

/-- What `_node` holds after the first call resolved it. -/
def resolvedNode (env : Env) : PyVal :=
  if env.nodejsOk then .strV "nodejs"
  else if env.nodeOk then .strV "node"
  else .falseV

/-- The spec's precedence, written from its words: node under `nodejs` or
`node` if a compatible runtime was found, else the in-process parser if it
is importable, else pandoc. -/
def specSelectedBackend (env : Env) : Backend :=
  if env.nodejsOk then .marked "nodejs"
  else if env.nodeOk then .marked "node"
  else if env.mistune then .mistuneB else .pandocB

theorem markdown2html_call_resolved (env : Env) :
    markdown2html_call env (resolvedNode env)
      = (resolvedNode env, false, 0, specSelectedBackend env) := by
  unfold markdown2html_call selectNode chooseBackend resolvedNode
    specSelectedBackend
  by_cases h1 : env.nodejsOk <;> by_cases h2 : env.nodeOk <;> simp [h1, h2]

theorem markdown2html_call_unset (env : Env) :
    markdown2html_call env PyVal.noneV
      = (resolvedNode env, !env.nodejsOk && !env.nodeOk,
          if env.nodejsOk then 1 else 2, specSelectedBackend env) := by
  unfold markdown2html_call selectNode chooseBackend resolvedNode
    specSelectedBackend
  by_cases h1 : env.nodejsOk <;> by_cases h2 : env.nodeOk <;> simp [h1, h2]

theorem runCalls_resolved (env : Env) (n : Nat) :
    runCalls env n (resolvedNode env)
      = List.replicate n (false, 0, specSelectedBackend env) := by
  induction n with
  | zero => rfl
  | succ m ih =>
      rw [runCalls, markdown2html_call_resolved]
      simp [ih, List.replicate_succ]

theorem runCalls_unset (env : Env) (n : Nat) :
    runCalls env (n + 1) PyVal.noneV
      = (!env.nodejsOk && !env.nodeOk, if env.nodejsOk then 1 else 2,
          specSelectedBackend env)
        :: List.replicate n (false, 0, specSelectedBackend env) := by
  rw [runCalls, markdown2html_call_unset]
  simp [runCalls_resolved]

/-- Claim C2: every call of a `markdown2html` sequence starting from an unset
`_node` uses the backend fixed by the spec's precedence (node under `nodejs`
or `node` when available, else mistune when importable, else pandoc), and
the probes run only during the first call: later calls run zero probes. -/
theorem markdown2html_backend_precedence_memoized (env : Env) (n : Nat) :
    (runCalls env n PyVal.noneV).map (fun e => e.2.2)
      = List.replicate n (specSelectedBackend env)
    ∧ (runCalls env (n + 1) PyVal.noneV).map (fun e => e.2.1)
      = (if env.nodejsOk then 1 else 2) :: List.replicate n 0 := by
  constructor
  · cases n with
    | zero => rfl
    | succ m =>
        rw [runCalls_unset]
        simp [List.map_replicate, List.replicate_succ]
  · rw [runCalls_unset]; simp [List.map_replicate]

/-- Claim C5: when both node probes fail, a sequence of two or more
`markdown2html` calls emits the fallback warning during the first call only. -/
theorem markdown2html_warns_once (env : Env) (n : Nat)
    (h1 : env.nodejsOk = false) (h2 : env.nodeOk = false) (hn : 2 ≤ n) :
    (runCalls env n PyVal.noneV).map (fun e => e.1)
      = true :: List.replicate (n - 1) false := by
  obtain ⟨m, rfl⟩ : ∃ m, n = m + 1 := by
    cases n with
    | zero => omega
    | succ k => exact ⟨k, rfl⟩
  rw [runCalls_unset]
  simp [h1, h2, List.map_replicate]

/-- Claim C5 (witness): both probes failing and three calls — the warning
flags are `[true, false, false]`. -/
theorem markdown2html_warns_once_witness :
    (runCalls ⟨false, false, true⟩ 3 PyVal.noneV).map (fun e => e.1)
      = true :: List.replicate 2 false :=
  markdown2html_warns_once ⟨false, false, true⟩ 3 rfl rfl (by decide)

/-- Claim C6: `markdown2html_marked`, with `_node` resolved to a command
string, raises `NodeJSMissing` exactly when the spawn raises `OSError`, with
a message carrying the joined command, the OS error text and an install
hint; a spawn that succeeds yields the decoded, newline-stripped output
whatever the exit code — the code is never inspected. -/
theorem markdown2html_marked_error_contract
    (envE envO : SpawnEnv) (decode : String → String)
    (c source e out : String) (code : Nat)
    (h1 : envE c = SpawnOutcome.osError e)
    (h2 : envO c = SpawnOutcome.ok out code) :
    markdown2html_marked envE decode (PyVal.strV c) source
      = Except.error (PyError.nodeJSMissing
          ("The command '" ++ c ++ " " ++ marked ++ "' returned an error: "
            ++ e ++ ".\nPlease check that Node.js is installed."))
    ∧ markdown2html_marked envO decode (PyVal.strV c) source
      = Except.ok (pyRstripNewlines (decode out))
    ∧ (∀ env : SpawnEnv,
        (∃ m, markdown2html_marked env decode (PyVal.strV c) source
            = Except.error (PyError.nodeJSMissing m))
        ↔ (∃ em, env c = SpawnOutcome.osError em))
    ∧ (∀ env env' : SpawnEnv, ∀ o k k',
        env c = SpawnOutcome.ok o k → env' c = SpawnOutcome.ok o k' →
        markdown2html_marked env decode (PyVal.strV c) source
          = markdown2html_marked env' decode (PyVal.strV c) source) := by
  refine ⟨?_, ?_, ?_, ?_⟩
  · simp [markdown2html_marked, markedCommand, h1]
  · simp [markdown2html_marked, markedCommand, h2]
  · intro env
    constructor
    · rintro ⟨m, hm⟩
      cases henv : env c with
      | osError em => exact ⟨em, rfl⟩
      | ok o k =>
          rw [markdown2html_marked] at hm
          simp [markedCommand, henv] at hm
    · rintro ⟨em, hem⟩
      refine ⟨"The command '" ++ c ++ " " ++ marked ++ "' returned an error: "
        ++ em ++ ".\nPlease check that Node.js is installed.", ?_⟩
      simp [markdown2html_marked, markedCommand, hem]
  · intro env env' o k k' ha hb
    simp [markdown2html_marked, markedCommand, ha, hb]

/-- Claim C6 (witness): a spawn failing with a concrete OS error yields the
concrete `NodeJSMissing` message. -/
theorem markdown2html_marked_error_contract_witness :
    markdown2html_marked (fun _ => SpawnOutcome.osError "No such file")
      (fun b => b) (PyVal.strV "node") "x"
      = Except.error (PyError.nodeJSMissing
          ("The command '" ++ "node" ++ " " ++ marked
            ++ "' returned an error: " ++ "No such file"
            ++ ".\nPlease check that Node.js is installed.")) :=
  (markdown2html_marked_error_contract
    (fun _ => SpawnOutcome.osError "No such file")
    (fun _ => SpawnOutcome.ok "" 0) (fun b => b) "node" "x" "No such file"
    "" 0 rfl rfl).1

/-- Claim C10: a direct `markdown2html_marked` call while the module-level
`_node` is still `None` builds a command whose executable entry is `None`;
`subprocess.Popen` then raises `TypeError`, which the `except OSError`
handler does not catch, so the failure is NOT converted to `NodeJSMissing`
(the spec's `BackendUnavailable`). -/
theorem markdown2html_marked_unset_node_typeerror
    (spawnEnv : SpawnEnv) (decode : String → String) (source : String) :
    (markedCommand PyVal.noneV).head? = some PyVal.noneV
    ∧ markdown2html_marked spawnEnv decode PyVal.noneV source
      = Except.error (PyError.typeError
          "expected str, bytes or os.PathLike object, not NoneType")
    ∧ isBackendUnavailable (PyError.typeError
          "expected str, bytes or os.PathLike object, not NoneType")
      = false :=
  ⟨rfl, rfl, rfl⟩

/-- HTML-escape a character list: ampersands and angle brackets become
entities, everything else is kept. -/
def escapeChars : List Char → List Char
  | [] => []
  | c :: cs =>
      if c = '&' then '&' :: 'a' :: 'm' :: 'p' :: ';' :: escapeChars cs
      else if c = '<' then '&' :: 'l' :: 't' :: ';' :: escapeChars cs
      else if c = '>' then '&' :: 'g' :: 't' :: ';' :: escapeChars cs
      else c :: escapeChars cs

/-- Modelled from the spec: `mistune.escape` (external library), the HTML
escaping applied to untagged code blocks. -/
def mistuneEscape (s : String) : String := ⟨escapeChars s.data⟩

theorem escapeChars_no_raw (l : List Char) :
    '<' ∉ escapeChars l ∧ '>' ∉ escapeChars l := by
  induction l with
  | nil => simp [escapeChars]
  | cons c cs ih =>
      obtain ⟨ih1, ih2⟩ := ih
      rw [escapeChars]
      by_cases h1 : c = '&'
      · simp only [if_pos h1, List.mem_cons, not_or]
        exact ⟨⟨by decide, by decide, by decide, by decide, by decide, ih1⟩,
               ⟨by decide, by decide, by decide, by decide, by decide, ih2⟩⟩
      · by_cases h2 : c = '<'
        · simp only [if_neg h1, if_pos h2, List.mem_cons, not_or]
          exact ⟨⟨by decide, by decide, by decide, by decide, ih1⟩,
                 ⟨by decide, by decide, by decide, by decide, ih2⟩⟩
        · by_cases h3 : c = '>'
          · simp only [if_neg h1, if_neg h2, if_pos h3, List.mem_cons, not_or]
            exact ⟨⟨by decide, by decide, by decide, by decide, ih1⟩,
                   ⟨by decide, by decide, by decide, by decide, ih2⟩⟩
          · simp only [if_neg h1, if_neg h2, if_neg h3, List.mem_cons, not_or]
            exact ⟨⟨fun he => h2 he.symm, ih1⟩, ⟨fun he => h3 he.symm, ih2⟩⟩

/-- `MyRenderer.block_code(code, lang)` (source lines 99-105): with a falsy
language tag (`None` or the empty string) the escaped code is wrapped in
`<pre><code>`; otherwise pygments resolves a lexer by name — raising its
unknown-language error when the name has no registered lexer — and the
highlighted HTML is returned. `reg` tells which language names have a
registered lexer; `hl code lang` stands for
`highlight(code, get_lexer_by_name(lang, stripall=True), HtmlFormatter())`
(both external to this module). -/
def block_code (reg : String → Bool) (hl : String → String → String)
    (code : String) (lang : Option String) : Except PyError String :=
  match lang with
  | none => .ok ("\n<pre><code>" ++ mistuneEscape code ++ "</code></pre>\n")
  | some l =>
      if l = "" then
        .ok ("\n<pre><code>" ++ mistuneEscape code ++ "</code></pre>\n")
      else if reg l then .ok (hl code l)
      else .error (.classNotFound l)

/-- Modelled from the spec: the shape of a parsed Markdown document as the
in-process parser (external) hands it to its renderer — ordinary blocks
rendered by the default renderer, fenced code blocks by `block_code`. -/
inductive MdBlock where
  | para (txt : String)
  | fenced (code : String) (lang : Option String)

/-- Modelled from the spec: dispatch of one parsed block to the renderer;
the default rendering of a non-code block is paragraph markup. -/
def renderBlock (reg : String → Bool) (hl : String → String → String) :
    MdBlock → Except PyError String
  | .para t => .ok ("<p>" ++ t ++ "</p>\n")
  | .fenced c l => block_code reg hl c l

/-- Modelled from the spec: the parser renders the document block by block,
concatenating the pieces; an exception from the renderer aborts the whole
conversion. -/
def renderDoc (reg : String → Bool) (hl : String → String → String) :
    List MdBlock → Except PyError String
  | [] => .ok ""
  | b :: bs =>
      match renderBlock reg hl b with
      | .error e => .error e
      | .ok h =>
          match renderDoc reg hl bs with
          | .error e => .error e
          | .ok rest => .ok (h ++ rest)

/-- `markdown2html_mistune(source)` (source lines 107-108) with the module
load state explicit: when loading mistune failed the module global is
`None`, and the attribute access `mistune.Markdown` raises `AttributeError`
(Python semantics); otherwise the parser (external, abstracted by `parse`)
produces blocks rendered through `MyRenderer`. -/
def markdown2html_mistune (mistuneAvail : Bool)
    (parse : String → List MdBlock) (reg : String → Bool)
    (hl : String → String → String) (source : String) :
    Except PyError String :=
  if mistuneAvail then renderDoc reg hl (parse source)
  else .error (.attributeError "NoneType object has no attribute Markdown")

/-- Claim C3 (counterexample): with mistune absent, `markdown2html_mistune`
raises `AttributeError` — a builtin Python exception, not the module's
`ConversionException` kind — so the claim that it fails with a
`BackendUnavailable` error is false. -/
theorem markdown2html_mistune_not_backend_unavailable_counterexample :
    markdown2html_mistune false (fun _ => []) (fun _ => false)
      (fun _ _ => "") "# Hi"
      = Except.error (PyError.attributeError
          "NoneType object has no attribute Markdown")
    ∧ isBackendUnavailable (PyError.attributeError
          "NoneType object has no attribute Markdown") = false :=
  ⟨rfl, rfl⟩

/-- Claim C3 (amended): for every source string, `markdown2html_mistune`
does fail when mistune is not installed, but with `AttributeError` from the
attribute access on the `None` placeholder, not with a `BackendUnavailable`
(`ConversionException`) error. -/
theorem markdown2html_mistune_fails_without_mistune
    (parse : String → List MdBlock) (reg : String → Bool)
    (hl : String → String → String) (source : String) :
    markdown2html_mistune false parse reg hl source
      = Except.error (PyError.attributeError
          "NoneType object has no attribute Markdown")
    ∧ isBackendUnavailable (PyError.attributeError
          "NoneType object has no attribute Markdown") = false :=
  ⟨rfl, rfl⟩

theorem renderBlock_error_shape (reg : String → Bool)
    (hl : String → String → String) (b : MdBlock) (e : PyError)
    (h : renderBlock reg hl b = Except.error e) :
    ∃ lg, e = PyError.classNotFound lg := by
  cases b with
  | para t => simp [renderBlock] at h
  | fenced c l =>
      cases l with
      | none => simp [renderBlock, block_code] at h
      | some lg =>
          rw [renderBlock, block_code] at h
          by_cases h0 : lg = ""
          · simp [h0] at h
          · by_cases h1 : reg lg = true
            · simp [h0, h1] at h
            · rw [if_neg h0, if_neg h1] at h
              injection h with h2
              exact ⟨lg, h2.symm⟩

theorem renderDoc_error_of_bad_block (reg : String → Bool)
    (hl : String → String → String) (code lg : String)
    (hne : lg ≠ "") (hbad : reg lg = false) (pre post : List MdBlock) :
    ∃ lg', renderDoc reg hl
        (pre ++ MdBlock.fenced code (some lg) :: post)
      = Except.error (PyError.classNotFound lg') := by
  induction pre with
  | nil =>
      refine ⟨lg, ?_⟩
      simp [renderDoc, renderBlock, block_code, hne, hbad]
  | cons b rest ih =>
      cases hb : renderBlock reg hl b with
      | error e =>
          obtain ⟨lg', rfl⟩ := renderBlock_error_shape reg hl b e hb
          refine ⟨lg', ?_⟩
          simp [renderDoc, hb]
      | ok s =>
          obtain ⟨lg', hlg⟩ := ih
          refine ⟨lg', ?_⟩
          simp [renderDoc, hb, hlg]

/-- Claim C9: in the mistune renderer, an untagged fenced code block becomes
an escaped `<pre><code>` block whose escaped payload holds no raw angle
bracket; a fenced block whose tag has a registered lexer is rendered through
the pygments highlight-and-format pipeline; and a document containing a
fenced block whose tag has no registered lexer makes the whole conversion
fail with the unknown-language error. -/
theorem mistune_block_code_rendering (reg : String → Bool)
    (hl : String → String → String) (code lreg lbad : String)
    (parse : String → List MdBlock) (source : String)
    (pre post : List MdBlock)
    (hr : reg lreg = true) (hrne : lreg ≠ "")
    (hb : reg lbad = false) (hbne : lbad ≠ "")
    (hparse : parse source = pre ++ MdBlock.fenced code (some lbad) :: post) :
    block_code reg hl code none
      = Except.ok ("\n<pre><code>" ++ mistuneEscape code ++ "</code></pre>\n")
    ∧ '<' ∉ (mistuneEscape code).data ∧ '>' ∉ (mistuneEscape code).data
    ∧ block_code reg hl code (some lreg) = Except.ok (hl code lreg)
    ∧ ∃ lg, markdown2html_mistune true parse reg hl source
        = Except.error (PyError.classNotFound lg) := by
  refine ⟨rfl, (escapeChars_no_raw code.data).1, (escapeChars_no_raw code.data).2,
    ?_, ?_⟩
  · simp [block_code, hrne, hr]
  · rw [markdown2html_mistune]
    simp only [if_pos rfl, hparse]
    exact renderDoc_error_of_bad_block reg hl code lbad hbne hb pre post

/-- Claim C9 (witness): a concrete registry knowing only `python`, a document
with one block tagged `nosuchlang` — the conversion fails with the
unknown-language error, while the registered tag and the untagged block
render as claimed. -/
theorem mistune_block_code_rendering_witness :
    block_code (fun l => l = "python") (fun c l => "<hl " ++ l ++ ">" ++ c)
      "a<b" none
      = Except.ok ("\n<pre><code>" ++ mistuneEscape "a<b" ++ "</code></pre>\n")
    ∧ '<' ∉ (mistuneEscape "a<b").data ∧ '>' ∉ (mistuneEscape "a<b").data
    ∧ block_code (fun l => l = "python")
        (fun c l => "<hl " ++ l ++ ">" ++ c) "a<b" (some "python")
      = Except.ok ((fun c l => "<hl " ++ l ++ ">" ++ c) "a<b" "python")
    ∧ ∃ lg, markdown2html_mistune true
        (fun _ => [MdBlock.fenced "a<b" (some "nosuchlang")])
        (fun l => l = "python") (fun c l => "<hl " ++ l ++ ">" ++ c) "src"
        = Except.error (PyError.classNotFound lg) :=
  mistune_block_code_rendering (fun l => l = "python")
    (fun c l => "<hl " ++ l ++ ">" ++ c) "a<b" "python" "nosuchlang"
    (fun _ => [MdBlock.fenced "a<b" (some "nosuchlang")]) "src" [] []
    (by decide) (by decide) (by decide) (by decide) rfl

/-- Modelled from the spec: one invocation of the document-conversion tool —
either the tool is not installed, or it ran, producing an output string, a
stderr string and an exit code. -/
inductive PandocOutcome where
  | notFound
  | exited (outp : String) (errOut : String) (code : Nat)
deriving DecidableEq, Repr

/-- Environment for the document-conversion tool: what invoking it on a
source with an input format, an output format and extra arguments does in
this process. -/
def PandocEnv : Type := String → String → String → List String → PandocOutcome

/-- Modelled from the spec: `pandoc(source, fmt, to, extra_args)`
(`IPython.nbconvert.utils.pandoc`, not under src/) — fails with the
tool-missing `ConversionException` when the tool is not installed, fails
with a conversion error surfacing the tool's stderr when it exits non-zero,
and otherwise returns the tool's output string. -/
def pandoc (env : PandocEnv) (source fmt toFmt : String)
    (extraArgs : List String) : Except PyError String :=
  match env source fmt toFmt extraArgs with
  | .notFound =>
      .error (.pandocMissing
        "Pandoc wasn't found: please check that pandoc is installed")
  | .exited outp errOut code =>
      if code = 0 then .ok outp else .error (.conversionError errOut)

/-- `markdown2latex(source)` (source lines 55-71): pandoc, markdown to
latex. -/
def markdown2latex (env : PandocEnv) (source : String) :
    Except PyError String :=
  pandoc env source "markdown" "latex" []

/-- `markdown2rst(source)` (source lines 130-146): pandoc, markdown to
rst. -/
def markdown2rst (env : PandocEnv) (source : String) :
    Except PyError String :=
  pandoc env source "markdown" "rst" []

/-- `markdown2html_pandoc(source)` (source lines 110-112): pandoc, markdown
to html, with the mathjax extra argument. -/
def markdown2html_pandoc (env : PandocEnv) (source : String) :
    Except PyError String :=
  pandoc env source "markdown" "html" ["--mathjax"]

/-- Claim C7: `markdown2latex` consults the tool at markdown-to-latex and
`markdown2rst` at markdown-to-rst (no extra arguments); for any source —
the empty string included — each returns the tool's (possibly empty) output
on a zero exit, fails with the tool-missing `ConversionException` when the
tool is absent, and fails with a conversion error surfacing the tool's
stderr on a non-zero exit. -/
theorem markdown2latex_rst_contract
    (envA envZ envF : PandocEnv) (source outL outR errOut errF : String)
    (codeF : Nat)
    (hAl : envA source "markdown" "latex" [] = PandocOutcome.notFound)
    (hAr : envA source "markdown" "rst" [] = PandocOutcome.notFound)
    (hZl : envZ source "markdown" "latex" []
      = PandocOutcome.exited outL errOut 0)
    (hZr : envZ source "markdown" "rst" []
      = PandocOutcome.exited outR errOut 0)
    (hFc : codeF ≠ 0)
    (hFl : envF source "markdown" "latex" []
      = PandocOutcome.exited outL errF codeF)
    (hFr : envF source "markdown" "rst" []
      = PandocOutcome.exited outR errF codeF) :
    markdown2latex envA source
      = Except.error (PyError.pandocMissing
          "Pandoc wasn't found: please check that pandoc is installed")
    ∧ markdown2rst envA source
      = Except.error (PyError.pandocMissing
          "Pandoc wasn't found: please check that pandoc is installed")
    ∧ markdown2latex envZ source = Except.ok outL
    ∧ markdown2rst envZ source = Except.ok outR
    ∧ markdown2latex envF source
      = Except.error (PyError.conversionError errF)
    ∧ markdown2rst envF source
      = Except.error (PyError.conversionError errF) := by
  refine ⟨?_, ?_, ?_, ?_, ?_, ?_⟩ <;>
    simp [markdown2latex, markdown2rst, pandoc, hAl, hAr, hZl, hZr, hFl,
      hFr, hFc]

/-- Claim C7 (witness): concrete environments with the empty source string —
both functions succeed with empty output when the tool exits zero, both fail
with the tool-missing error when it is absent, and both surface stderr on a
non-zero exit. -/
theorem markdown2latex_rst_contract_witness :
    markdown2latex (fun _ _ _ _ => PandocOutcome.notFound) ""
      = Except.error (PyError.pandocMissing
          "Pandoc wasn't found: please check that pandoc is installed")
    ∧ markdown2rst (fun _ _ _ _ => PandocOutcome.notFound) ""
      = Except.error (PyError.pandocMissing
          "Pandoc wasn't found: please check that pandoc is installed")
    ∧ markdown2latex (fun _ _ _ _ => PandocOutcome.exited "" "" 0) ""
      = Except.ok ""
    ∧ markdown2rst (fun _ _ _ _ => PandocOutcome.exited "" "" 0) ""
      = Except.ok ""
    ∧ markdown2latex (fun _ _ _ _ => PandocOutcome.exited "" "boom" 64) ""
      = Except.error (PyError.conversionError "boom")
    ∧ markdown2rst (fun _ _ _ _ => PandocOutcome.exited "" "boom" 64) ""
      = Except.error (PyError.conversionError "boom") :=
  markdown2latex_rst_contract (fun _ _ _ _ => PandocOutcome.notFound)
    (fun _ _ _ _ => PandocOutcome.exited "" "" 0)
    (fun _ _ _ _ => PandocOutcome.exited "" "boom" 64)
    "" "" "" "" "boom" 64 rfl rfl rfl rfl (by decide) rfl rfl

/-- Claim C8: `markdown2html_pandoc` consults the tool at markdown-to-html
with the math-rendering argument `--mathjax`, returning the tool's output
unchanged on a zero exit; its failure behaviour matches `markdown2latex` —
the tool-missing `ConversionException` when the tool is absent, a
conversion error surfacing stderr on a non-zero exit. -/
theorem markdown2html_pandoc_contract
    (envA envZ envF : PandocEnv) (source outp errOut errF : String)
    (codeF : Nat)
    (hA : envA source "markdown" "html" ["--mathjax"]
      = PandocOutcome.notFound)
    (hZ : envZ source "markdown" "html" ["--mathjax"]
      = PandocOutcome.exited outp errOut 0)
    (hFc : codeF ≠ 0)
    (hF : envF source "markdown" "html" ["--mathjax"]
      = PandocOutcome.exited outp errF codeF) :
    markdown2html_pandoc envA source
      = Except.error (PyError.pandocMissing
          "Pandoc wasn't found: please check that pandoc is installed")
    ∧ markdown2html_pandoc envZ source = Except.ok outp
    ∧ markdown2html_pandoc envF source
      = Except.error (PyError.conversionError errF) := by
  refine ⟨?_, ?_, ?_⟩ <;>
    simp [markdown2html_pandoc, pandoc, hA, hZ, hF, hFc]

/-- Claim C8 (witness): concrete environments — output returned unchanged on
success, the two failure modes as for `markdown2latex`. -/
theorem markdown2html_pandoc_contract_witness :
    markdown2html_pandoc (fun _ _ _ _ => PandocOutcome.notFound) "# Hi"
      = Except.error (PyError.pandocMissing
          "Pandoc wasn't found: please check that pandoc is installed")
    ∧ markdown2html_pandoc
        (fun _ _ _ _ => PandocOutcome.exited "<h1>Hi</h1>" "" 0) "# Hi"
      = Except.ok "<h1>Hi</h1>"
    ∧ markdown2html_pandoc
        (fun _ _ _ _ => PandocOutcome.exited "<h1>Hi</h1>" "boom" 2) "# Hi"
      = Except.error (PyError.conversionError "boom") :=
  markdown2html_pandoc_contract (fun _ _ _ _ => PandocOutcome.notFound)
    (fun _ _ _ _ => PandocOutcome.exited "<h1>Hi</h1>" "" 0)
    (fun _ _ _ _ => PandocOutcome.exited "<h1>Hi</h1>" "boom" 2)
    "# Hi" "<h1>Hi</h1>" "" "boom" 2 rfl rfl (by decide) rfl
